import Mathlib

/-
Verification of the append-time validation engine of the
PatternedOptogeneticStimulusTable (ndx-patterned-ogen,
src/pynwb/ndx_patterned_ogen/patterned_ogen.py).

The embedding follows `PatternedOptogeneticStimulusTable.add_interval`
line by line: the inherited append runs first, then the scalar-shape
checks on power / frequency / pulse_width, then the three per-rois
cardinality checks against len(targets.targeted_rois[:]), then the
missing-power and the conflicting-power checks, in exactly the source
order.  Numeric parameter values are modelled as rationals; a supplied
value is either a scalar or a sequence (list / tuple / ndarray in the
source).  A raised ValueError is modelled as `some (PyError.valueError
msg)` with the byte-for-byte message; len() applied to a scalar is the
TypeError variant.
-/

namespace NdxPatternedOgen

/-- A value supplied for one stimulation parameter column: either a
numeric scalar or a sequence of numerics (a list, tuple or ndarray in
the source). -/
inductive ParamValue where
  | scalar (x : ℚ)
  | seq (xs : List ℚ)
deriving DecidableEq

/-- A DynamicTableRegion: an ordered list of row indices referencing an
externally owned table (a PlaneSegmentation in the source).  Only the
indices matter to the validator, through their count. -/
structure DynamicTableRegion where
  data : List Nat
deriving DecidableEq

/-- OptogeneticStimulusTarget: the targeted rois region (required) and
the segmented rois region (optional, default None in the source). -/
structure OptogeneticStimulusTarget where
  targeted_rois : DynamicTableRegion
  segmented_rois : Option DynamicTableRegion
deriving DecidableEq

/-- The polymorphic stimulus-pattern reference accepted by add_interval:
one of OptogeneticStimulus2DPattern, OptogeneticStimulus3DPattern,
TemporalFocusing, SpiralScanning.  The validator never inspects the
payload. -/
inductive StimulusPattern where
  | pattern2D (name description : String)
  | pattern3D (name description : String)
  | temporalFocusing (name : String)
  | spiralScanning (name : String)
deriving DecidableEq

/-- PatternedOptogeneticStimulusSite reference: the validator never
inspects it beyond its presence (it is a required argument). -/
structure PatternedOptogeneticStimulusSite where
  name : String
  effector : Option String
deriving DecidableEq

/-- The keyword arguments of one add_interval call, after docval: the
six parameter columns default to None (`none` here); start_time,
stop_time, targets, stimulus_pattern and stimulus_site are required. -/
structure IntervalArgs where
  start_time : ℚ
  stop_time : ℚ
  power : Option ParamValue
  frequency : Option ParamValue
  pulse_width : Option ParamValue
  power_per_rois : Option ParamValue
  frequency_per_rois : Option ParamValue
  pulse_width_per_rois : Option ParamValue
  targets : OptogeneticStimulusTarget
  stimulus_pattern : StimulusPattern
  stimulus_site : PatternedOptogeneticStimulusSite
deriving DecidableEq

/-- An exception raised by add_interval: a ValueError with its exact
message, or the TypeError that len() raises on a scalar. -/
inductive PyError where
  | valueError (msg : String)
  | typeError
deriving DecidableEq

/-- The test `isinstance(v, (list, np.ndarray, tuple))` on an argument
that may be absent (None). -/
def isSequenceValue : Option ParamValue → Bool
  | some (ParamValue.seq _) => true
  | _ => false

/-- Python len() on a parameter value: defined on a sequence, a
TypeError (modelled as `none`) on a scalar. -/
def lenOf : ParamValue → Option Nat
  | ParamValue.scalar _ => none
  | ParamValue.seq xs => some xs.length

/-- Message of the ValueError raised when the scalar-form `power` column
is supplied as a sequence (patterned_ogen.py lines 620-624). -/
def shapeMsgPower : String :=
  "'power' should be defined as scalar. Use 'power_per_rois' to store photostimulation at different powers, for each rois in target."

/-- Message of the ValueError raised when the scalar-form `frequency`
column is supplied as a sequence (lines 625-629). -/
def shapeMsgFrequency : String :=
  "'frequency' should be defined as scalar. Use 'frequency_per_rois' to store photostimulation at different frequency, for each rois in target."

/-- Message of the ValueError raised when the scalar-form `pulse_width`
column is supplied as a sequence (lines 631-635). -/
def shapeMsgPulseWidth : String :=
  "'pulse_width' should be defined as scalar. Use 'pulse_width_per_rois' to store photostimulation with different pulse width, for each rois in target."

/-- Message of the ValueError raised when neither `power` nor
`power_per_rois` is supplied (lines 663-666). -/
def missingPowerMsg : String :=
  "Nor 'power' or 'power_per_rois' has been defined. At least one of the two must be defined"

/-- Message of the ValueError raised when both `power` and
`power_per_rois` are supplied (lines 668-671). -/
def bothPowerMsg : String :=
  "Both 'power' and 'power_per_rois' has been defined. Only one of them must be defined"

/-- Message of the ValueError raised when a per-rois column of the named
family has `n` elements while `targeted_rois` has `m` (the f-strings of
lines 642-645, 650-653, 658-661). -/
def cardinalityMsg (family : String) (n m : Nat) : String :=
  "'" ++ family ++ "_per_rois' has " ++ toString n ++ " elements but it must have " ++ toString m ++ " elements as 'targeted_roi'."

/-- One cardinality check block of add_interval: skipped when the column
is None; otherwise len() is taken (TypeError on a scalar) and compared
with n_targets, raising the cardinality ValueError on mismatch. -/
def checkPerRois (family : String) (v : Option ParamValue) (nTargets : Nat) :
    Option PyError :=
  match v with
  | none => none
  | some pv =>
    match lenOf pv with
    | none => some PyError.typeError
    | some n =>
      if n ≠ nTargets then
        some (PyError.valueError (cardinalityMsg family n nTargets))
      else
        none

/-- The validation body of add_interval (lines 620-671), in source
order: the three scalar-shape checks, then n_targets :=
len(targets.targeted_rois[:]), then the per-rois cardinality checks for
power, frequency, pulse_width, then the missing-power check, then the
conflicting-power check.  Returns the first raised exception, `none`
when every check passes. -/
def validateInterval (a : IntervalArgs) : Option PyError :=
  if isSequenceValue a.power then some (PyError.valueError shapeMsgPower)
  else if isSequenceValue a.frequency then some (PyError.valueError shapeMsgFrequency)
  else if isSequenceValue a.pulse_width then some (PyError.valueError shapeMsgPulseWidth)
  else
    let nTargets := a.targets.targeted_rois.data.length
    match checkPerRois "power" a.power_per_rois nTargets with
    | some e => some e
    | none =>
      match checkPerRois "frequency" a.frequency_per_rois nTargets with
      | some e => some e
      | none =>
        match checkPerRois "pulse_width" a.pulse_width_per_rois nTargets with
        | some e => some e
        | none =>
          if a.power_per_rois.isNone && a.power.isNone then
            some (PyError.valueError missingPowerMsg)
          else if a.power_per_rois.isSome && a.power.isSome then
            some (PyError.valueError bothPowerMsg)
          else
            none

/-- PatternedOptogeneticStimulusTable.add_interval (lines 614-671).  The
first statement of the body is `super().add_interval(**kwargs)` (line
618), the inherited TimeIntervals append, modelled as appending the row
unconditionally; only then does the validation of lines 620-671 run, so
the returned table holds the new row even when an exception is
raised. -/
def addInterval (table : List IntervalArgs) (a : IntervalArgs) :
    List IntervalArgs × Option PyError :=
  (table ++ [a], validateInterval a)

/-- The three parameter families of the table: each has a scalar-form
column and a per-rois column. -/
inductive Family where
  | power
  | frequency
  | pulse_width
deriving DecidableEq

/-- The column-name stem of a family, as interpolated into the
cardinality error messages. -/
def Family.columnName : Family → String
  | .power => "power"
  | .frequency => "frequency"
  | .pulse_width => "pulse_width"

/-- The scalar-form argument of a family in one add_interval call. -/
def scalarValue : Family → IntervalArgs → Option ParamValue
  | .power, a => a.power
  | .frequency, a => a.frequency
  | .pulse_width, a => a.pulse_width

/-- The per-rois argument of a family in one add_interval call. -/
def perRoisValue : Family → IntervalArgs → Option ParamValue
  | .power, a => a.power_per_rois
  | .frequency, a => a.frequency_per_rois
  | .pulse_width, a => a.pulse_width_per_rois

/-- The shape-error message of a family's scalar column. -/
def shapeMsg : Family → String
  | .power => shapeMsgPower
  | .frequency => shapeMsgFrequency
  | .pulse_width => shapeMsgPulseWidth

/-- The scalar-shape checks that the source runs before the given
family's own shape check (source order: power, frequency,
pulse_width). -/
def earlierShapesOk : Family → IntervalArgs → Prop
  | .power, _ => True
  | .frequency, a => isSequenceValue a.power = false
  | .pulse_width, a =>
      isSequenceValue a.power = false ∧ isSequenceValue a.frequency = false

/-- The per-rois cardinality checks that the source runs before the
given family's own cardinality check (source order: power, frequency,
pulse_width). -/
def earlierPerRoisOk : Family → IntervalArgs → Nat → Prop
  | .power, _, _ => True
  | .frequency, a, m => checkPerRois "power" a.power_per_rois m = none
  | .pulse_width, a, m =>
      checkPerRois "power" a.power_per_rois m = none ∧
      checkPerRois "frequency" a.frequency_per_rois m = none

/-- A target set of cardinality 10, as built by
mock_OptogeneticStimulusTarget (n_rois = 10, both regions over the rows
0..9 of a mocked PlaneSegmentation). -/
def sampleTargets : OptogeneticStimulusTarget :=
  { targeted_rois := { data := List.range 10 },
    segmented_rois := some { data := List.range 10 } }

/-- A target set with the same targeted_rois as sampleTargets but no
segmented_rois region. -/
def altTargets : OptogeneticStimulusTarget :=
  { targeted_rois := { data := List.range 10 },
    segmented_rois := none }

/-- A 2D stimulus pattern reference, as built by
mock_OptogeneticStimulus2DPattern. -/
def samplePattern : StimulusPattern :=
  StimulusPattern.pattern2D "OptogeneticStimulus2DPattern"
    "Generic description for optogenetic stimulus 2D pattern"

/-- A stimulus site reference, as built by
mock_PatternedOptogeneticStimulusSite. -/
def sampleSite : PatternedOptogeneticStimulusSite :=
  { name := "PatternedOptogeneticStimulusSite", effector := some "ChR2" }

/-- Scenario A of the test suite: cardinality 10, power 70.0, frequency
20.0, pulse_width 0.1, start_time 0.0, stop_time 1.0, no per-rois
column. -/
def scenarioA : IntervalArgs :=
  { start_time := 0.0
    stop_time := 1.0
    power := some (ParamValue.scalar 70.0)
    frequency := some (ParamValue.scalar 20.0)
    pulse_width := some (ParamValue.scalar 0.1)
    power_per_rois := none
    frequency_per_rois := none
    pulse_width_per_rois := none
    targets := sampleTargets
    stimulus_pattern := samplePattern
    stimulus_site := sampleSite }

/-- Scenario D of the test suite: neither power nor power_per_rois (nor
any other parameter column) supplied. -/
def scenarioD : IntervalArgs :=
  { scenarioA with power := none, frequency := none, pulse_width := none }

/-- A row supplying power both as a scalar (70.0) and as a per-rois
array, the array having 12 elements against a cardinality of 10. -/
def bothMismatchArgs : IntervalArgs :=
  { scenarioA with power_per_rois := some (ParamValue.seq (List.replicate 12 0.05)) }

/-- A row supplying the scalar-form power column as a sequence and a
frequency_per_rois array of 12 elements against a cardinality of 10. -/
def shapeOverMismatchArgs : IntervalArgs :=
  { scenarioA with
      power := some (ParamValue.seq [70.0])
      frequency_per_rois := some (ParamValue.seq (List.replicate 12 20.0)) }

/-- A row supplying both scalar-form power and scalar-form frequency as
sequences. -/
def doubleSeqArgs : IntervalArgs :=
  { scenarioA with
      power := some (ParamValue.seq [70.0])
      frequency := some (ParamValue.seq [20.0]) }

/-- A row supplying frequency both as a scalar (20.0) and as a per-rois
array of matching length 10, with power valid as a scalar. -/
def bothFrequencyFormsArgs : IntervalArgs :=
  { scenarioA with frequency_per_rois := some (ParamValue.seq (List.replicate 10 20.0)) }

/-- A row identical to scenario A except start_time 1.0 is greater than
stop_time 0.0. -/
def invertedTimesArgs : IntervalArgs :=
  { scenarioA with start_time := 1.0, stop_time := 0.0 }

/-- Scenario B of the test suite: power supplied only as a per-rois
array of 12 elements against a cardinality of 10. -/
def scenarioB : IntervalArgs :=
  { scenarioA with
      power := none
      power_per_rois := some (ParamValue.seq (List.replicate 12 0.05)) }

/-- A row supplying power both as a scalar (70.0) and as a per-rois
array of matching length 10 (scenario C of the test suite, at
cardinality 10). -/
def bothMatchingArgs : IntervalArgs :=
  { scenarioA with power_per_rois := some (ParamValue.seq (List.replicate 10 0.05)) }

/-- A row supplying only the scalar-form frequency column as a
sequence. -/
def freqSeqArgs : IntervalArgs :=
  { scenarioA with frequency := some (ParamValue.seq [20.0]) }

/-- C1 (code bug): evaluated at a row with neither power nor
power_per_rois supplied, add_interval raises the missing-power
ValueError, yet the table already holds the rejected row: the inherited
append of line 618 runs before any validation, so the Event Table is
NOT left unchanged on error as the spec claims. -/
theorem c1_error_after_append :
    (addInterval [] scenarioD).2 = some (PyError.valueError missingPowerMsg) ∧
    (addInterval [] scenarioD).1 = [scenarioD] :=
  ⟨rfl, rfl⟩

/-- C2 counterexample: a row supplying both power (scalar 70.0) and
power_per_rois (12 elements against cardinality 10) is reported with
the CardinalityMismatch message, which differs from both presence
messages — the Column Presence check does NOT run before the
Cardinality check. -/
theorem c2_counterexample :
    bothMismatchArgs.power = some (ParamValue.scalar 70.0) ∧
    bothMismatchArgs.power_per_rois = some (ParamValue.seq (List.replicate 12 0.05)) ∧
    validateInterval bothMismatchArgs =
      some (PyError.valueError (cardinalityMsg "power" 12 10)) ∧
    cardinalityMsg "power" 12 10 ≠ bothPowerMsg ∧
    cardinalityMsg "power" 12 10 ≠ missingPowerMsg :=
  ⟨rfl, rfl, rfl, by decide, by decide⟩

/-- C2 as amended: the Cardinality check runs before the Column
Presence check — when power is supplied as a scalar together with a
power_per_rois array whose length differs from the cardinality of
targeted_rois (and the scalar-shape checks pass), add_interval reports
the CardinalityMismatch message, not the presence error. -/
theorem c2_cardinality_checked_first (a : IntervalArgs) (p : ℚ) (xs : List ℚ)
    (hpow : a.power = some (ParamValue.scalar p))
    (hfr : isSequenceValue a.frequency = false)
    (hpw : isSequenceValue a.pulse_width = false)
    (hpr : a.power_per_rois = some (ParamValue.seq xs))
    (hne : xs.length ≠ a.targets.targeted_rois.data.length) :
    validateInterval a =
      some (PyError.valueError
        (cardinalityMsg "power" xs.length a.targets.targeted_rois.data.length)) := by
  simp only [validateInterval]
  rw [hfr, hpw, hpow, hpr]
  simp [isSequenceValue, checkPerRois, lenOf, hne]

/-- C2 witness: the amended statement applied to the concrete row with
power 70.0 and a 12-element power_per_rois against cardinality 10. -/
theorem c2_witness :
    validateInterval bothMismatchArgs =
      some (PyError.valueError (cardinalityMsg "power" 12 10)) :=
  c2_cardinality_checked_first bothMismatchArgs 70.0 (List.replicate 12 0.05)
    rfl rfl rfl rfl (by decide)

/-- C3 counterexample: a row in which both power (scalar form) and
power_per_rois (per-target form) are supplied does NOT always fail with
the conflicting-representation message: with a 12-element
power_per_rois against cardinality 10 the raised error carries the
CardinalityMismatch message instead. -/
theorem c3_counterexample :
    bothMismatchArgs.power = some (ParamValue.scalar 70.0) ∧
    bothMismatchArgs.power_per_rois = some (ParamValue.seq (List.replicate 12 0.05)) ∧
    validateInterval bothMismatchArgs ≠ some (PyError.valueError bothPowerMsg) :=
  ⟨rfl, rfl, by decide⟩

/-- C3 as amended: when both power (as a scalar) and power_per_rois are
supplied and no earlier check fails (the scalar-shape checks pass and
every supplied per-rois array matches the cardinality), add_interval
fails with the ValueError whose message is exactly "Both 'power' and
'power_per_rois' has been defined. Only one of them must be
defined". -/
theorem c3_conflicting_power_message (a : IntervalArgs) (p : ℚ) (xs : List ℚ)
    (hpow : a.power = some (ParamValue.scalar p))
    (hfr : isSequenceValue a.frequency = false)
    (hpw : isSequenceValue a.pulse_width = false)
    (hpr : a.power_per_rois = some (ParamValue.seq xs))
    (hlen : xs.length = a.targets.targeted_rois.data.length)
    (hfrc : checkPerRois "frequency" a.frequency_per_rois
      a.targets.targeted_rois.data.length = none)
    (hpwc : checkPerRois "pulse_width" a.pulse_width_per_rois
      a.targets.targeted_rois.data.length = none) :
    validateInterval a = some (PyError.valueError bothPowerMsg) := by
  simp only [validateInterval]
  rw [hfr, hpw, hpow, hpr, hfrc, hpwc]
  simp [isSequenceValue, checkPerRois, lenOf, hlen]

/-- C3 witness: the amended statement applied to the concrete row with
power 70.0 and a matching 10-element power_per_rois. -/
theorem c3_witness :
    validateInterval bothMatchingArgs = some (PyError.valueError bothPowerMsg) :=
  c3_conflicting_power_message bothMatchingArgs 70.0 (List.replicate 10 0.05)
    rfl rfl rfl rfl rfl rfl rfl

/-- C4: when neither power nor power_per_rois is supplied and no other
check fails earlier (the scalar-shape checks pass and the supplied
per-rois arrays of the optional families match the cardinality),
add_interval fails with the ValueError whose message is exactly "Nor
'power' or 'power_per_rois' has been defined. At least one of the two
must be defined". -/
theorem c4_missing_power_message (a : IntervalArgs)
    (hpow : a.power = none)
    (hpr : a.power_per_rois = none)
    (hfr : isSequenceValue a.frequency = false)
    (hpw : isSequenceValue a.pulse_width = false)
    (hfrc : checkPerRois "frequency" a.frequency_per_rois
      a.targets.targeted_rois.data.length = none)
    (hpwc : checkPerRois "pulse_width" a.pulse_width_per_rois
      a.targets.targeted_rois.data.length = none) :
    validateInterval a = some (PyError.valueError missingPowerMsg) := by
  simp only [validateInterval]
  rw [hpow, hpr, hfr, hpw, hfrc, hpwc]
  simp [isSequenceValue, checkPerRois]

/-- C4 witness: the statement applied to scenario D, the concrete row
supplying no parameter column at all. -/
theorem c4_witness :
    validateInterval scenarioD = some (PyError.valueError missingPowerMsg) :=
  c4_missing_power_message scenarioD rfl rfl rfl rfl rfl rfl

/-- C5 counterexample: instantiated at the frequency family, a row
whose frequency_per_rois has 12 elements against cardinality 10 but
whose power column is supplied as a sequence fails with the
InvalidShape message for power, not with a CardinalityMismatch
message. -/
theorem c5_counterexample :
    shapeOverMismatchArgs.frequency_per_rois =
      some (ParamValue.seq (List.replicate 12 20.0)) ∧
    shapeOverMismatchArgs.targets.targeted_rois.data.length = 10 ∧
    validateInterval shapeOverMismatchArgs =
      some (PyError.valueError shapeMsgPower) ∧
    shapeMsgPower ≠ cardinalityMsg "frequency" 12 10 :=
  ⟨rfl, rfl, rfl, by decide⟩

/-- C5 as amended: provided the three scalar-shape checks pass and the
per-rois checks of the families checked earlier (source order power,
frequency, pulse_width) pass, a family whose per-rois array has n
elements against a cardinality of m with n ≠ m makes add_interval fail
with the ValueError whose message is exactly "'[family]_per_rois' has
[n] elements but it must have [m] elements as 'targeted_roi'." with the
actual n and m interpolated. -/
theorem c5_cardinality_message (a : IntervalArgs) (f : Family) (xs : List ℚ)
    (h1 : isSequenceValue a.power = false)
    (h2 : isSequenceValue a.frequency = false)
    (h3 : isSequenceValue a.pulse_width = false)
    (hearlier : earlierPerRoisOk f a a.targets.targeted_rois.data.length)
    (hv : perRoisValue f a = some (ParamValue.seq xs))
    (hne : xs.length ≠ a.targets.targeted_rois.data.length) :
    validateInterval a =
      some (PyError.valueError
        (cardinalityMsg f.columnName xs.length a.targets.targeted_rois.data.length)) := by
  cases f with
  | power =>
    simp only [perRoisValue] at hv
    simp only [validateInterval, Family.columnName]
    rw [h1, h2, h3, hv]
    simp [checkPerRois, lenOf, hne]
  | frequency =>
    simp only [perRoisValue] at hv
    simp only [earlierPerRoisOk] at hearlier
    simp only [validateInterval, Family.columnName]
    rw [h1, h2, h3, hearlier, hv]
    simp [checkPerRois, lenOf, hne]
  | pulse_width =>
    simp only [perRoisValue] at hv
    simp only [earlierPerRoisOk] at hearlier
    obtain ⟨hp, hf⟩ := hearlier
    simp only [validateInterval, Family.columnName]
    rw [h1, h2, h3, hp, hf, hv]
    simp [checkPerRois, lenOf, hne]

/-- C5 witness: the amended statement applied to scenario B — power
supplied only as a 12-element power_per_rois against cardinality 10
yields exactly the message "'power_per_rois' has 12 elements but it
must have 10 elements as 'targeted_roi'.". -/
theorem c5_witness :
    validateInterval scenarioB =
      some (PyError.valueError (cardinalityMsg "power" 12 10)) :=
  c5_cardinality_message scenarioB Family.power (List.replicate 12 0.05)
    rfl rfl rfl trivial rfl (by decide)

/-- C6 counterexample: instantiated at the frequency family, a row
whose frequency column is a sequence but whose power column is also a
sequence fails with the power shape message, not the frequency one. -/
theorem c6_counterexample :
    isSequenceValue doubleSeqArgs.frequency = true ∧
    validateInterval doubleSeqArgs = some (PyError.valueError shapeMsgPower) ∧
    shapeMsgPower ≠ shapeMsgFrequency :=
  ⟨rfl, rfl, by decide⟩

/-- C6 as amended: when the scalar-form column of a family is supplied
as a sequence and no family checked earlier (source order power,
frequency, pulse_width) has its scalar column supplied as a sequence,
add_interval fails with the InvalidShape ValueError of that family,
whose message for power is exactly "'power' should be defined as
scalar. Use 'power_per_rois' to store photostimulation at different
powers, for each rois in target." and analogously for the other two
families. -/
theorem c6_invalid_shape_message (a : IntervalArgs) (f : Family)
    (hseq : isSequenceValue (scalarValue f a) = true)
    (hearlier : earlierShapesOk f a) :
    validateInterval a = some (PyError.valueError (shapeMsg f)) := by
  cases f with
  | power =>
    simp only [scalarValue] at hseq
    simp only [validateInterval, shapeMsg]
    rw [hseq]
    simp
  | frequency =>
    simp only [scalarValue] at hseq
    simp only [earlierShapesOk] at hearlier
    simp only [validateInterval, shapeMsg]
    rw [hearlier, hseq]
    simp
  | pulse_width =>
    simp only [scalarValue] at hseq
    simp only [earlierShapesOk] at hearlier
    obtain ⟨hp, hf⟩ := hearlier
    simp only [validateInterval, shapeMsg]
    rw [hp, hf, hseq]
    simp

/-- C6 witness: the amended statement applied to a row whose only
sequence-valued scalar column is frequency, yielding exactly the
frequency shape message. -/
theorem c6_witness :
    validateInterval freqSeqArgs = some (PyError.valueError shapeMsgFrequency) :=
  c6_invalid_shape_message freqSeqArgs Family.frequency rfl rfl

/-- C7 counterexample: a row supplying both frequency (scalar 20.0) and
frequency_per_rois (matching length 10), with power valid, is NOT
rejected: add_interval raises no error and commits the row. -/
theorem c7_counterexample :
    bothFrequencyFormsArgs.frequency = some (ParamValue.scalar 20.0) ∧
    bothFrequencyFormsArgs.frequency_per_rois =
      some (ParamValue.seq (List.replicate 10 20.0)) ∧
    addInterval [] bothFrequencyFormsArgs = ([bothFrequencyFormsArgs], none) :=
  ⟨rfl, rfl, rfl⟩

/-- C7 as amended: add_interval applies no mutual-exclusivity check to
the optional families — a row supplying both the scalar and the
per-target form of frequency, each individually valid (scalar forms
scalar, per-rois lengths matching the cardinality, power in exactly the
scalar form), is accepted and committed with both representations
present. -/
theorem c7_optional_family_not_checked (table : List IntervalArgs)
    (a : IntervalArgs) (p q : ℚ) (xs : List ℚ)
    (hfr : a.frequency = some (ParamValue.scalar q))
    (hfpr : a.frequency_per_rois = some (ParamValue.seq xs))
    (hlen : xs.length = a.targets.targeted_rois.data.length)
    (hpow : a.power = some (ParamValue.scalar p))
    (hppr : a.power_per_rois = none)
    (hpw : isSequenceValue a.pulse_width = false)
    (hpwc : checkPerRois "pulse_width" a.pulse_width_per_rois
      a.targets.targeted_rois.data.length = none) :
    addInterval table a = (table ++ [a], none) := by
  simp only [addInterval, validateInterval]
  rw [hpow, hfr, hpw, hppr, hfpr, hpwc]
  simp [isSequenceValue, checkPerRois, lenOf, hlen]

/-- C7 witness: the amended statement applied to the concrete row with
frequency 20.0 and a matching 10-element frequency_per_rois. -/
theorem c7_witness :
    addInterval [] bothFrequencyFormsArgs = ([bothFrequencyFormsArgs], none) ∧
    validateInterval bothFrequencyFormsArgs = none := by
  have h := c7_optional_family_not_checked [] bothFrequencyFormsArgs 70.0 20.0
    (List.replicate 10 20.0) rfl rfl rfl rfl rfl rfl rfl
  exact ⟨h, congrArg Prod.snd h⟩

/-- C8: a valid candidate row — power in exactly one form (scalar, or
per-rois array matching the cardinality), scalar columns not sequences,
supplied per-rois arrays matching the cardinality, the required
references present by construction — is accepted: no error is raised,
the row count grows by exactly one, and the stored row equals the
supplied inputs. -/
theorem c8_valid_row_committed (table : List IntervalArgs) (a : IntervalArgs)
    (hpow : (∃ p, a.power = some (ParamValue.scalar p)) ∧ a.power_per_rois = none ∨
      a.power = none ∧ ∃ ps, a.power_per_rois = some (ParamValue.seq ps) ∧
        ps.length = a.targets.targeted_rois.data.length)
    (hfr : isSequenceValue a.frequency = false)
    (hpw : isSequenceValue a.pulse_width = false)
    (hfrc : checkPerRois "frequency" a.frequency_per_rois
      a.targets.targeted_rois.data.length = none)
    (hpwc : checkPerRois "pulse_width" a.pulse_width_per_rois
      a.targets.targeted_rois.data.length = none) :
    validateInterval a = none ∧
    addInterval table a = (table ++ [a], none) ∧
    (addInterval table a).1.length = table.length + 1 ∧
    (addInterval table a).1.getLast? = some a := by
  have hv : validateInterval a = none := by
    rcases hpow with ⟨⟨p, hp⟩, hpr⟩ | ⟨hp, ps, hpr, hl⟩
    · simp only [validateInterval]
      rw [hp, hpr, hfr, hpw, hfrc, hpwc]
      simp [isSequenceValue, checkPerRois]
    · simp only [validateInterval]
      rw [hp, hpr, hfr, hpw, hfrc, hpwc]
      simp [isSequenceValue, checkPerRois, lenOf, hl]
  refine ⟨hv, ?_, ?_, ?_⟩
  · simp [addInterval, hv]
  · simp [addInterval]
  · simp [addInterval]

/-- C8 witness: scenario A — cardinality 10, power 70.0, frequency
20.0, pulse_width 0.1 — succeeds, the row count becomes 1, the stored
row equals the inputs, and its start_time and stop_time are 0.0 and
1.0. -/
theorem c8_witness :
    validateInterval scenarioA = none ∧
    addInterval [] scenarioA = ([scenarioA], none) ∧
    (addInterval [] scenarioA).1.length = 1 ∧
    (addInterval [] scenarioA).1.getLast? = some scenarioA ∧
    scenarioA.start_time = 0.0 ∧ scenarioA.stop_time = 1.0 := by
  have h := c8_valid_row_committed [] scenarioA
    (Or.inl ⟨⟨70.0, rfl⟩, rfl⟩) rfl rfl rfl rfl
  exact ⟨h.1, h.2.1, h.2.2.1, h.2.2.2, rfl, rfl⟩

/-- C9 counterexample: a row whose start_time 1.0 is greater than its
stop_time 0.0, and is otherwise valid, raises no error at all — it is
committed, contradicting the claimed InvalidShape failure. -/
theorem c9_counterexample :
    invertedTimesArgs.stop_time < invertedTimesArgs.start_time ∧
    addInterval [] invertedTimesArgs = ([invertedTimesArgs], none) :=
  ⟨by norm_num [invertedTimesArgs, scenarioA], rfl⟩

/-- C9 as amended: add_interval performs no check relating start_time
and stop_time — the validation verdict is invariant under replacing
both time bounds by arbitrary values, so a row with start_time greater
than stop_time is treated exactly like any other. -/
theorem c9_time_bounds_unchecked (a : IntervalArgs) (s t : ℚ) :
    validateInterval { a with start_time := s, stop_time := t } =
      validateInterval a := rfl

/-- C10: the validation verdict depends on the supplied targets object
only through the length of its targeted_rois region — replacing the
target set by any target set whose targeted_rois region has the same
length (in particular one with a different or absent segmented_rois
region) leaves the verdict of every candidate row unchanged, so the
single cardinality m shared by the three per-rois checks is the
targeted_rois length and segmented_rois plays no role. -/
theorem c10_cardinality_from_targeted_rois (a : IntervalArgs)
    (t : OptogeneticStimulusTarget)
    (hlen : t.targeted_rois.data.length = a.targets.targeted_rois.data.length) :
    validateInterval { a with targets := t } = validateInterval a := by
  simp only [validateInterval]
  rw [hlen]

/-- C10 witness: the statement applied to scenario A with the target
set replaced by one having the same targeted_rois but no segmented_rois
region. -/
theorem c10_witness :
    validateInterval { scenarioA with targets := altTargets } =
      validateInterval scenarioA :=
  c10_cardinality_from_targeted_rois scenarioA altTargets rfl

end NdxPatternedOgen
